import Mathlib

/-
Verification of the dmipy tutorial-notebook specification.

The repository under study ships three tutorial notebooks
(`tutorial_simulating_and_fitting_using_a_simple_model.ipynb`,
`tutorial_combining_biophysical_models_into_microstructure_model.ipynb`,
`tutorial_distributed_model_representations.ipynb`).  The modeling library
they exercise (dmipy / microstruktur) is not part of the supplied sources,
so the library operations are modelled from the spec and from the concrete
inputs and outputs the notebooks record, while the notebook cells
themselves are embedded directly as data.
-/

set_option autoImplicit false

namespace Dmipy

/-- A parameter cardinality table: the ordered dictionary mapping each
parameter name to the number of scalar values it takes, exactly as the
notebooks display it via `parameter_cardinality`. -/
abbrev Cardinality := List (String × Nat)

/-- Modelled from the spec: `parameters_to_parameter_vector` of the missing
modeling library.  Given the model cardinality table and a named parameter
assignment, it concatenates the values of each parameter in cardinality
order into one flat parameter vector ("We obtain the right ordering for the
input of the function by using the model's parameters_to_parameter_vector()
function"). -/
def parameters_to_parameter_vector (card : Cardinality) (p : String → List ℚ) : List ℚ :=
  (card.map (fun nc => p nc.1)).flatten

/-- Modelled from the spec: `parameter_vector_to_parameters` of the missing
modeling library.  It splits a flat parameter vector back into the named
associative parameter map, giving each name in the cardinality table the
next block of values of its cardinality ("The names of the parameters can
again be obtained using parameter_vector_to_parameters"). -/
def parameter_vector_to_parameters : Cardinality → List ℚ → List (String × List ℚ)
  | [], _ => []
  | nc :: rest, v => (nc.1, v.take nc.2) :: parameter_vector_to_parameters rest (v.drop nc.2)

/-- A named parameter assignment `p` is valid for a cardinality table when
every listed parameter is given exactly its cardinality many values. -/
def ValidParams (card : Cardinality) (p : String → List ℚ) : Prop :=
  ∀ nc ∈ card, (p nc.1).length = nc.2

/-- Total number of scalar values of a cardinality table. -/
def totalCardinality (card : Cardinality) : Nat :=
  (card.map (fun nc => nc.2)).sum

theorem parameters_to_parameter_vector_cons (nc : String × Nat) (rest : Cardinality)
    (p : String → List ℚ) :
    parameters_to_parameter_vector (nc :: rest) p =
      p nc.1 ++ parameters_to_parameter_vector rest p := by
  simp [parameters_to_parameter_vector]

theorem length_parameters_to_parameter_vector (card : Cardinality) (p : String → List ℚ)
    (hp : ValidParams card p) :
    (parameters_to_parameter_vector card p).length = totalCardinality card := by
  induction card with
  | nil => simp [parameters_to_parameter_vector, totalCardinality]
  | cons nc rest ih =>
      have hrest : ValidParams rest p := fun x hx => hp x (List.mem_cons_of_mem _ hx)
      have hnc : (p nc.1).length = nc.2 := hp nc (List.mem_cons_self _ _)
      simp [parameters_to_parameter_vector_cons, totalCardinality, hnc, ih hrest]

theorem parameter_round_trip (card : Cardinality) (p : String → List ℚ)
    (hp : ValidParams card p) :
    parameter_vector_to_parameters card (parameters_to_parameter_vector card p) =
      card.map (fun nc => (nc.1, p nc.1)) := by
  induction card with
  | nil => simp [parameters_to_parameter_vector, parameter_vector_to_parameters]
  | cons nc rest ih =>
      have hrest : ValidParams rest p := fun x hx => hp x (List.mem_cons_of_mem _ hx)
      have hnc : (p nc.1).length = nc.2 := hp nc (List.mem_cons_self _ _)
      rw [parameters_to_parameter_vector_cons]
      simp [parameter_vector_to_parameters, List.take_append_of_le_length hnc.ge,
        hnc, List.drop_append_of_le_length hnc.ge, List.drop_eq_nil_of_le hnc.le,
        ih hrest]

/-- Modelled from the spec: the naming scheme of combined models.  A
component parameter name is the component model class name with an
occurrence index prepended to the base parameter name, joined by
underscores (the notebooks record names such as `C1Stick_1_mu`). -/
def qualParamName (className : String) (idx : Nat) (base : String) : String :=
  className ++ "_" ++ toString idx ++ "_" ++ base

/-- A (sub)model as the combination machinery sees it: a class name and the
ordered cardinality table of its parameters.  Compartment models carry their
base parameters; distributed models carry their already-qualified ones. -/
structure SubModel where
  className : String
  card : Cardinality
  deriving DecidableEq

/-- Parameter names of a submodel, in table order. -/
def SubModel.names (m : SubModel) : List String :=
  m.card.map (fun nc => nc.1)

/-- Occurrence index of class `c` given the classes `prior` already seen:
one more than the number of earlier components of the same class. -/
def occCount (prior : List String) (c : String) : Nat :=
  (prior.filter (fun x => x = c)).length + 1

/-- Modelled from the spec: qualification of the component parameter tables
of a combined model.  Each component contributes its parameters with its
class name and occurrence index prepended. -/
def qualifyCards (prior : List String) : List SubModel → Cardinality
  | [] => []
  | m :: rest =>
      m.card.map (fun nc => (qualParamName m.className (occCount prior m.className) nc.1, nc.2))
        ++ qualifyCards (m.className :: prior) rest

/-- Name of the `i`-th volume fraction parameter. -/
def pvName (i : Nat) : String := "partial_volume_" ++ toString i

/-- Modelled from the spec: the volume-fraction parameters of a
`MultiCompartmentModel` over `n` component models.  The notebooks record one
`partial_volume_i` per model position for the two-model case and none for
the single-model case. -/
def mcmPartialVolumes (n : Nat) : Cardinality :=
  if n ≤ 1 then [] else (List.range n).map (fun i => (pvName i, 1))

/-- Modelled from the spec: `MultiCompartmentModel` parameter cardinality —
the joined, qualified component parameters followed by the volume-fraction
parameters. -/
def MultiCompartmentModel_parameter_cardinality (models : List SubModel) : Cardinality :=
  qualifyCards [] models ++ mcmPartialVolumes models.length

/-- Remove the distributed target parameter from a component model. -/
def removeParam (target : String) (m : SubModel) : SubModel :=
  ⟨m.className, m.card.filter (fun nc => nc.1 ≠ target)⟩

/-- Modelled from the spec: the parameter cardinality of a distributed model
(`distribute_models`).  The distribution contributes its own qualified
parameters, each component model its qualified parameters with the
distributed target parameter removed, and `n - 1` volume fractions tie the
components together ("the second volume fraction is defined as
partial_volume_1 = 1-partial_volume_0"). -/
def distributedCardinality (distClass : String) (distCard : Cardinality)
    (models : List SubModel) (target : String) : Cardinality :=
  distCard.map (fun nc => (qualParamName distClass 1 nc.1, nc.2))
    ++ qualifyCards [] (models.map (removeParam target))
    ++ (List.range (models.length - 1)).map (fun i => (pvName i, 1))

/-- Modelled from the spec: `distribute_models.SD1WatsonDistributed` — the
Watson orientation-dispersion distribution over oriented models; the
components' orientation parameter `mu` is the distributed target. -/
def SD1WatsonDistributed (models : List SubModel) : SubModel :=
  ⟨"SD1WatsonDistributed",
    distributedCardinality "SD1Watson" [("mu", 2), ("odi", 1)] models "mu"⟩

/-- Modelled from the spec: `distribute_models.SD2BinghamDistributed` — the
Bingham orientation-dispersion distribution over oriented models. -/
def SD2BinghamDistributed (models : List SubModel) : SubModel :=
  ⟨"SD2BinghamDistributed",
    distributedCardinality "SD2Bingham"
      [("mu", 2), ("psi", 1), ("odi", 1), ("beta_fraction", 1)] models "mu"⟩

/-- Modelled from the spec: `distribute_models.DD1GammaDistributed` — the
Gamma diameter distribution over models with a `target_parameter` naming the
distributed diameter. -/
def DD1GammaDistributed (models : List SubModel) (target : String) : SubModel :=
  ⟨"DD1GammaDistributed",
    distributedCardinality "DD1Gamma" [("alpha", 1), ("beta", 1)] models target⟩

/-- The Stick model of the dmipy notebooks, with the cardinality the
notebook records. -/
def C1Stick : SubModel := ⟨"C1Stick", [("mu", 2), ("lambda_par", 1)]⟩

/-- The Ball model of the dmipy notebooks. -/
def G1Ball : SubModel := ⟨"G1Ball", [("lambda_iso", 1)]⟩

/-- The Zeppelin model of the dmipy notebooks. -/
def G2Zeppelin : SubModel :=
  ⟨"G2Zeppelin", [("mu", 2), ("lambda_par", 1), ("lambda_perp", 1)]⟩

/-- The restricted Zeppelin model of the dmipy notebooks. -/
def G3RestrictedZeppelin : SubModel :=
  ⟨"G3RestrictedZeppelin", [("mu", 2), ("lambda_par", 1), ("lambda_inf", 1), ("A", 1)]⟩

/-- The Gaussian-phase cylinder model of the dmipy notebooks. -/
def C4CylinderGaussianPhaseApproximation : SubModel :=
  ⟨"C4CylinderGaussianPhaseApproximation", [("mu", 2), ("lambda_par", 1), ("diameter", 1)]⟩

/-- The Stick model of the older microstruktur notebook variant, with the
cardinality the notebook records: `OrderedDict([(lambda_par, 1), (mu, 2)])`. -/
def I1Stick : SubModel := ⟨"I1Stick", [("lambda_par", 1), ("mu", 2)]⟩

/-- The Ball model of the older microstruktur notebook variant. -/
def E3Ball : SubModel := ⟨"E3Ball", [("lambda_iso", 1)]⟩

/-- The Ball-and-Stick multi-compartment model of the combining-models
notebook: `MultiCompartmentModel(models=[ball, stick])`. -/
def ball_and_stick : List SubModel := [G1Ball, C1Stick]

/-- Recorded output of `ball_and_stick.parameter_cardinality` in the
combining-models notebook. -/
def recordedBallStickCardinality : Cardinality :=
  [("G1Ball_1_lambda_iso", 1), ("C1Stick_1_mu", 2), ("C1Stick_1_lambda_par", 1),
   ("partial_volume_0", 1), ("partial_volume_1", 1)]

/-- Recorded output of `watson_bundle.parameter_names` in the distributed
models notebook. -/
def recordedWatsonBundleNames : List String :=
  ["G2Zeppelin_1_lambda_perp", "SD1Watson_1_odi", "G2Zeppelin_1_lambda_par",
   "SD1Watson_1_mu", "C1Stick_1_lambda_par", "partial_volume_0"]

/-- Recorded output of `bingham_bundle.parameter_names` (Stick and Zeppelin)
in the distributed models notebook. -/
def recordedBinghamBundleNames : List String :=
  ["SD2Bingham_1_odi", "SD2Bingham_1_beta_fraction", "G2Zeppelin_1_lambda_perp",
   "SD2Bingham_1_psi", "SD2Bingham_1_mu", "G2Zeppelin_1_lambda_par",
   "C1Stick_1_lambda_par", "partial_volume_0"]

/-- Recorded output of `gamma_bundle.parameter_names` in the distributed
models notebook. -/
def recordedGammaBundleNames : List String :=
  ["C4CylinderGaussianPhaseApproximation_1_mu",
   "C4CylinderGaussianPhaseApproximation_1_lambda_par",
   "DD1Gamma_1_beta", "DD1Gamma_1_alpha"]

/-- Recorded output of `bingham_bundle.parameter_names` (cylinder and
restricted Zeppelin) in the distributed models notebook. -/
def recordedBinghamCylinderBundleNames : List String :=
  ["G3RestrictedZeppelin_1_A", "SD2Bingham_1_odi", "SD2Bingham_1_beta_fraction",
   "SD2Bingham_1_psi", "SD2Bingham_1_mu",
   "C4CylinderGaussianPhaseApproximation_1_lambda_par",
   "G3RestrictedZeppelin_1_lambda_inf", "G3RestrictedZeppelin_1_lambda_par",
   "C4CylinderGaussianPhaseApproximation_1_diameter", "partial_volume_0"]

/-- Recorded output of `white_matter_mc_model.parameter_names` in the
distributed models notebook. -/
def recordedWhiteMatterNames : List String :=
  ["DD1GammaDistributed_1_SD2BinghamDistributed_1_C4CylinderGaussianPhaseApproximation_1_lambda_par",
   "DD1GammaDistributed_1_SD2BinghamDistributed_1_G3RestrictedZeppelin_1_lambda_inf",
   "DD1GammaDistributed_1_DD1Gamma_1_beta",
   "DD1GammaDistributed_1_SD2BinghamDistributed_1_SD2Bingham_1_odi",
   "DD1GammaDistributed_1_SD2BinghamDistributed_1_partial_volume_0",
   "DD1GammaDistributed_1_SD2BinghamDistributed_1_SD2Bingham_1_psi",
   "DD1GammaDistributed_1_SD2BinghamDistributed_1_SD2Bingham_1_mu",
   "DD1GammaDistributed_1_SD2BinghamDistributed_1_G3RestrictedZeppelin_1_lambda_par",
   "DD1GammaDistributed_1_SD2BinghamDistributed_1_G3RestrictedZeppelin_1_A",
   "DD1GammaDistributed_1_SD2BinghamDistributed_1_SD2Bingham_1_beta_fraction",
   "DD1GammaDistributed_1_DD1Gamma_1_alpha"]

/-- The Watson bundle of the distributed models notebook:
`SD1WatsonDistributed(models=[stick, zeppelin])`. -/
def watson_bundle : SubModel := SD1WatsonDistributed [C1Stick, G2Zeppelin]

/-- The first Bingham bundle of the distributed models notebook:
`SD2BinghamDistributed(models=[stick, zeppelin])`. -/
def bingham_bundle : SubModel := SD2BinghamDistributed [C1Stick, G2Zeppelin]

/-- The Gamma bundle of the distributed models notebook:
`DD1GammaDistributed(models=[cylinder])` with the default diameter target. -/
def gamma_bundle : SubModel := DD1GammaDistributed [C4CylinderGaussianPhaseApproximation] "diameter"

/-- The second Bingham bundle of the distributed models notebook:
`SD2BinghamDistributed(models=[cylinder, restricted_zeppelin])`. -/
def bingham_cylinder_bundle : SubModel :=
  SD2BinghamDistributed [C4CylinderGaussianPhaseApproximation, G3RestrictedZeppelin]

/-- The Gamma-and-Bingham bundle of the distributed models notebook. -/
def gamma_bingham_bundle : SubModel :=
  DD1GammaDistributed [bingham_cylinder_bundle] "C4CylinderGaussianPhaseApproximation_1_diameter"

/-- The white-matter multi-compartment model of the distributed models
notebook: `MultiCompartmentModel(models=[gamma_bingham_bundle])`. -/
def white_matter_mc_model : List SubModel := [gamma_bingham_bundle]

/-- A compartment model together with its signal function: named parameters
to signal attenuation at an acquisition point (the biophysical equation
itself is outside the supplied material, so the function is abstract). -/
structure CompartmentModel where
  sub : SubModel
  signal : (String → List ℚ) → Nat → ℚ

/-- The named parameters a component model sees inside a combined model: the
combined assignment read through the component's qualified names. -/
def subParams (p : String → List ℚ) (cls : String) (idx : Nat) : String → List ℚ :=
  fun base => p (qualParamName cls idx base)

/-- The scalar value of the `i`-th volume fraction in an assignment. -/
def pvValue (p : String → List ℚ) (i : Nat) : ℚ := (p (pvName i)).headD 0

/-- Helper of `simulate_signal`: the weighted sum over the remaining
component models, tracking the classes already seen and the position. -/
def simulateSignalAux (p : String → List ℚ) (j : Nat) :
    List String → Nat → List CompartmentModel → ℚ
  | _, _, [] => 0
  | prior, i, m :: rest =>
      pvValue p i * m.signal (subParams p m.sub.className (occCount prior m.sub.className)) j
        + simulateSignalAux p j (m.sub.className :: prior) (i + 1) rest

/-- Modelled from the spec: `MultiCompartmentModel.simulate_signal` of the
missing modeling library — the volume-fraction-weighted combination of the
component models' signals ("Our new model will now be
E = vf_0 * E_Ball + vf_1 * E_Stick"). -/
def simulate_signal (models : List CompartmentModel) (p : String → List ℚ) (j : Nat) : ℚ :=
  simulateSignalAux p j [] 0 models

/-- Sum of the volume-fraction values of an assignment over `n` models. -/
def vfSum (n : Nat) (p : String → List ℚ) : ℚ :=
  ((List.range n).map (pvValue p)).sum

/-- Modelled from the spec: the parameter assignments a multi-compartment
model accepts for simulation — every parameter carries its cardinality many
values and the volume fractions sum to one ("a weighted combination of
compartment models whose volume fractions sum to one"). -/
def mcmAccepts (models : List SubModel) (p : String → List ℚ) : Prop :=
  ValidParams (MultiCompartmentModel_parameter_cardinality models) p ∧
    ((mcmPartialVolumes models.length).map (fun nc => (p nc.1).sum)).sum = 1

/-- Recorded output of `fitted_ball_and_stick.fitted_parameters` in the
combining-models notebook (one voxel). -/
def recordedFittedParameters : List (String × List ℚ) :=
  [("C1Stick_1_lambda_par", [170004007 / 10 ^ 17]),
   ("C1Stick_1_mu", [157079729 / 10 ^ 8, -157078812 / 10 ^ 8]),
   ("G1Ball_1_lambda_iso", [3 / 10 ^ 9]),
   ("partial_volume_0", [49999748 / 10 ^ 8]),
   ("partial_volume_1", [50000252 / 10 ^ 8])]

/-- Sum of the volume-fraction values of a returned parameter map. -/
def fittedVfSum (n : Nat) (fp : List (String × List ℚ)) : ℚ :=
  ((List.range n).map (fun i => (((fp.lookup (pvName i)).getD []).headD 0))).sum

/-- A concrete Ball for witnesses: its signal reads its diffusivity. -/
def demoBall : CompartmentModel := ⟨G1Ball, fun q _ => (q "lambda_iso").headD 0⟩

/-- A concrete Stick for witnesses: its signal reads its diffusivity. -/
def demoStick : CompartmentModel := ⟨C1Stick, fun q _ => (q "lambda_par").headD 0⟩

/-- A concrete valid assignment for the Ball-and-Stick model, following the
values the combining-models notebook simulates with. -/
def demoParams : String → List ℚ := fun s =>
  if s = "G1Ball_1_lambda_iso" then [3 / 10 ^ 9]
  else if s = "C1Stick_1_mu" then [157079633 / 10 ^ 8, 157079633 / 10 ^ 8]
  else if s = "C1Stick_1_lambda_par" then [17 / 10 ^ 10]
  else if s = "partial_volume_0" then [1 / 2]
  else if s = "partial_volume_1" then [1 / 2]
  else []

/-- Whether a parameter name ends in `_mu`, i.e. is an orientation. -/
def muSuffixed (s : String) : Bool := s.data.reverse.take 3 == ['u', 'm', '_']

/-- Modelled from the spec: the orientation-dispersion distributions
available in `distribute_models` for building a dispersed model ("Currently,
is possible to choose between the parametric Watson or Bingham
distributions"). -/
def orientationDispersionDistributions : List (String × (List SubModel → SubModel)) :=
  [("SD1WatsonDistributed", SD1WatsonDistributed),
   ("SD2BinghamDistributed", SD2BinghamDistributed)]

/-- A notebook code cell as the claims need it: which methods it calls on
model objects of the library, and whether it defines any function or class
of its own.  Module-level loading helpers (`acquisition_scheme_from_bvalues`,
`wu_minn_hcp_acquisition_scheme`) and attribute reads
(`parameter_cardinality`, `parameter_names`, `fitted_parameters`) are not
method calls. -/
structure NotebookCell where
  modelMethodCalls : List String
  definesFunctionOrClass : Bool

/-- The code cells of `tutorial_simulating_and_fitting_using_a_simple_model`:
scheme loading, `I1Stick()`, the cardinality read, two conversions to a
parameter vector, `simulate_signal`, `fit` and the final conversion back. -/
def tutorialSimpleCells : List NotebookCell :=
  [⟨[], false⟩, ⟨[], false⟩, ⟨[], false⟩,
   ⟨["parameters_to_parameter_vector"], false⟩,
   ⟨["simulate_signal"], false⟩,
   ⟨["parameters_to_parameter_vector"], false⟩,
   ⟨["fit"], false⟩,
   ⟨["parameter_vector_to_parameters"], false⟩]

/-- The code cells of the dmipy variant of
`tutorial_combining_biophysical_models_into_microstructure_model`. -/
def tutorialCombiningCells : List NotebookCell :=
  [⟨[], false⟩, ⟨[], false⟩, ⟨[], false⟩, ⟨[], false⟩,
   ⟨["parameters_to_parameter_vector", "simulate_signal"], false⟩,
   ⟨["fit"], false⟩,
   ⟨[], false⟩,
   ⟨["parameter_vector_to_parameters"], false⟩]

/-- The code cells of the microstruktur variant of the combining notebook. -/
def tutorialCombiningMicrostrukturCells : List NotebookCell :=
  [⟨[], false⟩, ⟨[], false⟩, ⟨[], false⟩, ⟨[], false⟩,
   ⟨["parameters_to_parameter_vector", "simulate_signal"], false⟩,
   ⟨["parameters_to_parameter_vector", "fit"], false⟩,
   ⟨["parameter_vector_to_parameters"], false⟩,
   ⟨["parameter_vector_to_parameters"], false⟩]

/-- The code cells of `tutorial_distributed_model_representations`: model
instantiations and parameter-name reads only. -/
def tutorialDistributedCells : List NotebookCell :=
  [⟨[], false⟩, ⟨[], false⟩, ⟨[], false⟩, ⟨[], false⟩,
   ⟨[], false⟩, ⟨[], false⟩, ⟨[], false⟩]

/-- Every code cell of the supplied notebooks. -/
def allNotebookCells : List NotebookCell :=
  tutorialSimpleCells ++ tutorialCombiningCells ++
    tutorialCombiningMicrostrukturCells ++ tutorialDistributedCells

/-- The three high-level methods the spec sentence lists. -/
def specListedMethods : List String :=
  ["simulate_signal", "fit", "parameters_to_parameter_vector"]

/-- Whether every notebook cell calls only methods of the allowed list and
defines no function or class of its own. -/
def callsWithin (allowed : List String) : Bool :=
  allNotebookCells.all fun c =>
    c.modelMethodCalls.all (fun m => allowed.contains m) && !c.definesFunctionOrClass

/-- The name of the first volume fraction, spelled out. -/
theorem pvName_zero : pvName 0 = "partial_volume_0" := rfl

/-- The name of the second volume fraction, spelled out. -/
theorem pvName_one : pvName 1 = "partial_volume_1" := rfl

/-- A list of length one sums to its head. -/
theorem headD_eq_sum_of_length_one (l : List ℚ) (h : l.length = 1) : l.headD 0 = l.sum := by
  obtain ⟨a, rfl⟩ := List.length_eq_one.mp h
  simp

/-- `parameters_to_parameter_vector` only reads the assignment at the
table's parameter names. -/
theorem parameters_to_parameter_vector_congr (card : Cardinality) (f g : String → List ℚ)
    (h : ∀ nc ∈ card, f nc.1 = g nc.1) :
    parameters_to_parameter_vector card f = parameters_to_parameter_vector card g := by
  induction card with
  | nil => rfl
  | cons nc rest ih =>
      rw [parameters_to_parameter_vector_cons, parameters_to_parameter_vector_cons,
        h nc (List.mem_cons_self _ _), ih (fun x hx => h x (List.mem_cons_of_mem _ hx))]

/-- Splitting a vector and reading the pieces back through lookup restores
the vector, when the parameter names do not repeat. -/
theorem vector_round_trip (card : Cardinality)
    (hnd : (card.map (fun nc => nc.1)).Nodup) :
    ∀ v : List ℚ, v.length = totalCardinality card →
      parameters_to_parameter_vector card
          (fun s => ((parameter_vector_to_parameters card v).lookup s).getD []) = v := by
  induction card with
  | nil =>
      intro v hv
      simp [totalCardinality] at hv
      simp [parameters_to_parameter_vector, hv]
  | cons nc rest ih =>
      intro v hv
      obtain ⟨hnotin, hndrest⟩ := List.nodup_cons.mp hnd
      have hvlen : (v.drop nc.2).length = totalCardinality rest := by
        simp [totalCardinality] at hv ⊢
        omega
      rw [parameters_to_parameter_vector_cons]
      have hhead :
          ((parameter_vector_to_parameters (nc :: rest) v).lookup nc.1).getD [] =
            v.take nc.2 := by
        simp [parameter_vector_to_parameters, List.lookup]
      rw [hhead]
      have hcongr :
          parameters_to_parameter_vector rest
              (fun s => ((parameter_vector_to_parameters (nc :: rest) v).lookup s).getD []) =
            parameters_to_parameter_vector rest
              (fun s =>
                ((parameter_vector_to_parameters rest (v.drop nc.2)).lookup s).getD []) := by
        apply parameters_to_parameter_vector_congr
        intro x hx
        have hne : (x.1 == nc.1) = false := by
          refine beq_false_of_ne fun hEq => hnotin ?_
          exact List.mem_map.mpr ⟨x, hx, hEq⟩
        simp [parameter_vector_to_parameters, List.lookup, hne]
      rw [hcongr, ih hndrest (v.drop nc.2) hvlen, List.take_append_drop]

/-- C1: for a multi-compartment model over component models, every valid
parameter assignment makes `simulate_signal` the volume-fraction-weighted
combination of the component signals; in the two-model Ball-and-Stick case
E = vf_0 * E_Ball + vf_1 * E_Stick. -/
theorem simulate_signal_ball_and_stick (ball stick : CompartmentModel)
    (p : String → List ℚ) (j : Nat)
    (hcls : ball.sub.className ≠ stick.sub.className)
    (_h : mcmAccepts [ball.sub, stick.sub] p) :
    simulate_signal [ball, stick] p j =
      pvValue p 0 * ball.signal (subParams p ball.sub.className 1) j
        + pvValue p 1 * stick.signal (subParams p stick.sub.className 1) j := by
  simp [simulate_signal, simulateSignalAux, occCount, List.filter, hcls]

/-- C1 witness: the theorem applied to concrete Ball and Stick models and a
concrete valid assignment. -/
theorem simulate_signal_ball_and_stick_witness :
    simulate_signal [demoBall, demoStick] demoParams 0 =
      pvValue demoParams 0 * demoBall.signal (subParams demoParams demoBall.sub.className 1) 0
        + pvValue demoParams 1 *
            demoStick.signal (subParams demoParams demoStick.sub.className 1) 0 :=
  simulate_signal_ball_and_stick demoBall demoStick demoParams 0 (by decide)
    ⟨by simp only [ValidParams]; decide,
     by
      simp [mcmPartialVolumes, demoParams, List.range_succ, pvName_zero, pvName_one,
        demoBall, demoStick, G1Ball, C1Stick]
      norm_num⟩

/-- C2: for every multi-compartment model and every assignment it accepts
for simulation, the volume fractions sum to one; and in the parameter map
the combining notebook records from `fit`, they sum to one as well. -/
theorem volume_fractions_sum_to_one (models : List SubModel) (p : String → List ℚ)
    (hn : 2 ≤ models.length) (h : mcmAccepts models p) :
    vfSum models.length p = 1 ∧ fittedVfSum 2 recordedFittedParameters = 1 := by
  constructor
  · have hpv : mcmPartialVolumes models.length =
        (List.range models.length).map (fun i => (pvName i, 1)) := by
      rw [mcmPartialVolumes, if_neg (by omega)]
    have hsum := h.2
    rw [hpv, List.map_map] at hsum
    rw [vfSum, ← hsum]
    apply congrArg
    apply List.map_congr_left
    intro i hi
    apply headD_eq_sum_of_length_one
    apply h.1 (pvName i, 1)
    rw [MultiCompartmentModel_parameter_cardinality]
    apply List.mem_append_right
    rw [hpv]
    exact List.mem_map_of_mem _ hi
  · simp [fittedVfSum, recordedFittedParameters, List.range_succ, List.lookup,
      pvName_zero, pvName_one]
    norm_num

/-- C2 witness: the theorem applied to the Ball-and-Stick model and a
concrete accepted assignment. -/
theorem volume_fractions_sum_to_one_witness :
    vfSum ball_and_stick.length demoParams = 1 ∧
      fittedVfSum 2 recordedFittedParameters = 1 :=
  volume_fractions_sum_to_one ball_and_stick demoParams (by decide)
    ⟨by simp only [ValidParams]; decide,
     by
      simp [mcmPartialVolumes, demoParams, List.range_succ, pvName_zero, pvName_one,
        ball_and_stick]
      norm_num⟩

/-- C3: converting a named parameter assignment to a parameter vector and
back returns exactly the original assignment, name for name; and in the
other direction, converting a parameter vector to named parameters and back
returns exactly the original vector. -/
theorem parameter_conversions_round_trip (card : Cardinality) (p : String → List ℚ)
    (hp : ValidParams card p) (hnd : (card.map (fun nc => nc.1)).Nodup) :
    parameter_vector_to_parameters card (parameters_to_parameter_vector card p) =
        card.map (fun nc => (nc.1, p nc.1)) ∧
      ∀ v : List ℚ, v.length = totalCardinality card →
        parameters_to_parameter_vector card
            (fun s => ((parameter_vector_to_parameters card v).lookup s).getD []) = v :=
  ⟨parameter_round_trip card p hp, vector_round_trip card hnd⟩

/-- C3 witness: the round trips at the Ball-and-Stick cardinality and a
concrete assignment. -/
theorem parameter_conversions_round_trip_witness :
    parameter_vector_to_parameters recordedBallStickCardinality
        (parameters_to_parameter_vector recordedBallStickCardinality demoParams) =
        recordedBallStickCardinality.map (fun nc => (nc.1, demoParams nc.1)) ∧
      ∀ v : List ℚ, v.length = totalCardinality recordedBallStickCardinality →
        parameters_to_parameter_vector recordedBallStickCardinality
            (fun s =>
              ((parameter_vector_to_parameters recordedBallStickCardinality v).lookup
                  s).getD []) = v :=
  parameter_conversions_round_trip recordedBallStickCardinality demoParams
    (by simp only [ValidParams]; decide) (by decide)

/-- C4: the associative parameter map `parameter_vector_to_parameters`
returns is keyed by the model's parameter names with each value of exactly
the reported cardinality; and the recorded `fitted_parameters` map of the
fit result is keyed by the Ball-and-Stick parameter names with the recorded
cardinalities. -/
theorem parameter_maps_follow_cardinality (card : Cardinality) (v : List ℚ)
    (hv : v.length = totalCardinality card) :
    (parameter_vector_to_parameters card v).map (fun e => (e.1, e.2.length)) = card ∧
      (recordedFittedParameters.map (fun e => (e.1, e.2.length))).Perm
        recordedBallStickCardinality := by
  constructor
  · induction card generalizing v with
    | nil => rfl
    | cons nc rest ih =>
        simp [totalCardinality] at hv
        have hlen : (v.take nc.2).length = nc.2 := by
          rw [List.length_take]
          omega
        have hdrop : (v.drop nc.2).length = totalCardinality rest := by
          rw [List.length_drop]
          simp [totalCardinality]
          omega
        simp [parameter_vector_to_parameters, hlen, ih (v.drop nc.2) hdrop]
  · decide

/-- C4 witness: the theorem applied to the Ball-and-Stick cardinality and a
concrete six-entry vector. -/
theorem parameter_maps_follow_cardinality_witness :
    (parameter_vector_to_parameters recordedBallStickCardinality
          [3, 1, 2, 17, 5, 7]).map (fun e => (e.1, e.2.length)) =
        recordedBallStickCardinality ∧
      (recordedFittedParameters.map (fun e => (e.1, e.2.length))).Perm
        recordedBallStickCardinality :=
  parameter_maps_follow_cardinality recordedBallStickCardinality [3, 1, 2, 17, 5, 7]
    (by decide)

/-- C5 counterexample: the notebooks call a high-level model method outside
the three the claim lists — `parameter_vector_to_parameters`. -/
theorem notebook_calls_exceed_spec_list :
    callsWithin specListedMethods = false ∧
      (allNotebookCells.any fun c =>
        c.modelMethodCalls.contains "parameter_vector_to_parameters") = true := by
  decide

/-- C5 (amended): every model method the notebook cells call is
`simulate_signal`, `fit`, `parameters_to_parameter_vector` or
`parameter_vector_to_parameters`, and no cell defines a function or class of
its own. -/
theorem notebook_calls_within_amended_list :
    callsWithin (specListedMethods ++ ["parameter_vector_to_parameters"]) = true := by
  decide

/-- C6: the orientation-dispersion distributions available for building a
dispersed model are exactly the parametric Watson and Bingham ones, and
applied to the notebook's Stick and Zeppelin they produce exactly the
recorded dispersed bundles. -/
theorem orientation_dispersion_watson_bingham :
    orientationDispersionDistributions.map (fun e => e.1) =
        ["SD1WatsonDistributed", "SD2BinghamDistributed"] ∧
      (SD1WatsonDistributed [C1Stick, G2Zeppelin]).className = "SD1WatsonDistributed" ∧
      (SD2BinghamDistributed [C1Stick, G2Zeppelin]).className = "SD2BinghamDistributed" ∧
      watson_bundle.names.Perm recordedWatsonBundleNames ∧
      bingham_bundle.names.Perm recordedBinghamBundleNames := by
  refine ⟨rfl, rfl, rfl, by decide, by decide⟩

/-- C7: wrapping models in a Gamma diameter distribution adds the Gamma
shape `alpha` and scale `beta` parameters for every model combination, and
in both notebook instances the distributed `diameter` target parameter is
gone from the resulting parameter names. -/
theorem gamma_distribution_replaces_diameter :
    (∀ (models : List SubModel) (target : String),
        "DD1Gamma_1_alpha" ∈ (DD1GammaDistributed models target).names ∧
          "DD1Gamma_1_beta" ∈ (DD1GammaDistributed models target).names) ∧
      gamma_bundle.names.Perm recordedGammaBundleNames ∧
      "C4CylinderGaussianPhaseApproximation_1_diameter" ∉ gamma_bundle.names ∧
      "SD2BinghamDistributed_1_C4CylinderGaussianPhaseApproximation_1_diameter" ∉
        gamma_bingham_bundle.names ∧
      "C4CylinderGaussianPhaseApproximation_1_diameter" ∈
        bingham_cylinder_bundle.names := by
  refine ⟨fun models target => ?_, by decide, by decide, by decide, by decide⟩
  have h : (DD1GammaDistributed models target).names =
      "DD1Gamma_1_alpha" :: "DD1Gamma_1_beta" ::
        ((qualifyCards [] (models.map (removeParam target)) ++
          (List.range (models.length - 1)).map (fun i => (pvName i, 1))).map
            (fun nc : String × Nat => nc.1)) := rfl
  rw [h]
  exact ⟨List.mem_cons_self _ _, List.mem_cons_of_mem _ (List.mem_cons_self _ _)⟩

/-- C8: a Watson- or Bingham-dispersed model always exposes the
distribution's own orientation parameter, and in the notebook's dispersed
bundles it is the only orientation parameter: the component models' `mu`
parameters are gone. -/
theorem dispersed_model_single_orientation :
    (∀ models : List SubModel,
        "SD1Watson_1_mu" ∈ (SD1WatsonDistributed models).names ∧
          "SD2Bingham_1_mu" ∈ (SD2BinghamDistributed models).names) ∧
      watson_bundle.names.filter muSuffixed = ["SD1Watson_1_mu"] ∧
      "C1Stick_1_mu" ∉ watson_bundle.names ∧
      "G2Zeppelin_1_mu" ∉ watson_bundle.names ∧
      bingham_bundle.names.filter muSuffixed = ["SD2Bingham_1_mu"] ∧
      "C1Stick_1_mu" ∉ bingham_bundle.names ∧
      "G2Zeppelin_1_mu" ∉ bingham_bundle.names := by
  refine ⟨fun models => ⟨?_, ?_⟩, by decide, by decide, by decide, by decide, by decide,
    by decide⟩
  · have h : (SD1WatsonDistributed models).names =
        "SD1Watson_1_mu" :: "SD1Watson_1_odi" ::
          ((qualifyCards [] (models.map (removeParam "mu")) ++
            (List.range (models.length - 1)).map (fun i => (pvName i, 1))).map
              (fun nc : String × Nat => nc.1)) := rfl
    rw [h]
    exact List.mem_cons_self _ _
  · have h : (SD2BinghamDistributed models).names =
        "SD2Bingham_1_mu" :: "SD2Bingham_1_psi" :: "SD2Bingham_1_odi" ::
          "SD2Bingham_1_beta_fraction" ::
          ((qualifyCards [] (models.map (removeParam "mu")) ++
            (List.range (models.length - 1)).map (fun i => (pvName i, 1))).map
              (fun nc : String × Nat => nc.1)) := rfl
    rw [h]
    exact List.mem_cons_self _ _

/-- C9: combined-model parameter names prepend the component class name and
occurrence index, nesting prefixes compose (the white-matter model names
reproduce exactly), and the `partial_volume_i` parameters are indexed by the
position `i` of the model in the input list. -/
theorem combined_model_parameter_naming :
    MultiCompartmentModel_parameter_cardinality ball_and_stick =
        recordedBallStickCardinality ∧
      ((MultiCompartmentModel_parameter_cardinality white_matter_mc_model).map
        (fun nc => nc.1)).Perm recordedWhiteMatterNames ∧
      bingham_cylinder_bundle.names.Perm recordedBinghamCylinderBundleNames ∧
      ∀ n i : Nat, 2 ≤ n → i < n →
        (mcmPartialVolumes n).getD i ("", 0) = (pvName i, 1) := by
  refine ⟨by decide, by decide, by decide, fun n i h2 hi => ?_⟩
  rw [mcmPartialVolumes, if_neg (by omega)]
  rw [List.getD_eq_getElem?_getD, List.getElem?_map, List.getElem?_range hi]
  rfl

end Dmipy
